import Mathlib

/-!
# nautilus-toolbar.c: navigation buttons, history menus and the deferred popup timer

Shallow embedding of `src/nautilus-toolbar.c`.

* Widgets are object identities (`Nat`).  The per-object data slot
  `"nav-direction"` is a finite table from widget to the stored `guint`.
* The GLib main context is external to the file.  It is embedded by its
  documented contract: `g_timeout_add_full` attaches a source and returns its
  positive id, ids are handed out by a counter and are never reused,
  `g_source_remove` detaches the source with the given id and reports whether it
  found one, a timeout source whose callback returns `FALSE` is detached after
  the callback.  Only the sources attached by this toolbar are tracked.
* `gtk_menu_popup` is recorded in a log of popped-up menus.
* `g_assert_not_reached ()` aborts: functions that can reach it return `Option`.
* `gint` geometry is embedded in `Int` (signed overflow is undefined in C and
  is outside the embedding).  The `int index` of `fill_menu` is incremented
  with explicit two's-complement wrap-around.
-/

namespace Nautilus

/-! ## Data model -/

/-- Value `NAUTILUS_NAVIGATION_DIRECTION_NONE` of the C enum. -/
def NAUTILUS_NAVIGATION_DIRECTION_NONE : Nat := 0
/-- Value `NAUTILUS_NAVIGATION_DIRECTION_BACK` of the C enum. -/
def NAUTILUS_NAVIGATION_DIRECTION_BACK : Nat := 1
/-- Value `NAUTILUS_NAVIGATION_DIRECTION_FORWARD` of the C enum. -/
def NAUTILUS_NAVIGATION_DIRECTION_FORWARD : Nat := 2

/-- The constant `#define MENU_POPUP_TIMEOUT 1200` (milliseconds). -/
def MENU_POPUP_TIMEOUT : Nat := 1200

/-- A widget is identified by its object identity. -/
abbrev GtkWidget := Nat

/-- A history entry (`NautilusBookmark *`), identified by its object identity. -/
abbrev NautilusBookmark := Nat

/-- The window collaborator as the toolbar reads it: the back and forward
history lists of its active slot. -/
structure NautilusWindow where
  back_history : List NautilusBookmark
  forward_history : List NautilusBookmark
deriving DecidableEq, Repr

/-- The two handlers `fill_menu` connects to a menu item's "activate" signal. -/
inductive ActivateHandler where
  | activate_back_menu_item_callback
  | activate_forward_menu_item_callback
deriving DecidableEq, Repr

/-- A menu item built by `fill_menu`: the bookmark it was created from, its
`"user_data"` slot and the handler connected to "activate". -/
structure GtkMenuItem where
  bookmark : NautilusBookmark
  user_data : Int
  handler : ActivateHandler
deriving DecidableEq, Repr

/-- One call `nautilus_window_back_or_forward (window, back, distance, flags)`. -/
structure BackOrForwardCall where
  back : Bool
  distance : Int
  flags : Nat
deriving DecidableEq, Repr

/-- The C struct `ScheduleMenuData`; `self` is the one toolbar of the embedding. -/
structure ScheduleMenuData where
  widget : GtkWidget
deriving DecidableEq, Repr

/-- A timeout source attached to the main context. -/
structure GSource where
  id : Nat
  interval : Nat
  data : ScheduleMenuData
deriving DecidableEq, Repr

/-- The main context: the id counter and the attached timeout sources. -/
structure GMainContext where
  next_id : Nat
  sources : List GSource
deriving DecidableEq, Repr

/-- One call of `gtk_menu_popup`: the menu, the anchor widget handed to
`menu_position_func`, the mouse button and the activation time. -/
structure MenuPopup where
  items : List GtkMenuItem
  anchor : GtkWidget
  button : Nat
  activate_time : Nat
deriving DecidableEq, Repr

/-- The fields of `GdkEventButton` the handlers read. -/
structure GdkEventButton where
  button : Nat
  time : Nat
deriving DecidableEq, Repr

/-- The fields of `struct _NautilusToolbarPrivate` the embedded functions use. -/
structure NautilusToolbarPrivate where
  window : NautilusWindow
  show_location_entry : Bool
  popup_timeout_id : Nat
  forward_button : GtkWidget
  back_button : GtkWidget
deriving DecidableEq, Repr

/-- The toolbar together with the toolkit state its functions act on. -/
structure NautilusToolbar where
  priv : NautilusToolbarPrivate
  /-- The main context holding the toolbar's timeout sources. -/
  context : GMainContext
  /-- The "nav-direction" object data: widget and stored value, newest first. -/
  nav_direction : List (GtkWidget × Nat)
  /-- The log of `gtk_menu_popup` calls, oldest first. -/
  popups : List MenuPopup
  /-- Visibility of `priv->location_entry`. -/
  location_entry_visible : Bool
  /-- Visibility of `priv->path_bar`. -/
  path_bar_visible : Bool
  /-- The preference `NAUTILUS_PREFERENCES_ALWAYS_USE_LOCATION_ENTRY`. -/
  always_use_location_entry : Bool
  /-- Number of "show-location-entry" property notifications emitted. -/
  notifications : Nat
deriving DecidableEq, Repr

/-! ## The GLib and GObject primitives -/

/-- `g_object_set_data (widget, "nav-direction", value)`. -/
def g_object_set_data (table : List (GtkWidget × Nat)) (widget : GtkWidget) (value : Nat) :
    List (GtkWidget × Nat) :=
  (widget, value) :: table

/-- `GPOINTER_TO_UINT (g_object_get_data (widget, "nav-direction"))`: the stored
value, or 0 (a NULL pointer) when nothing was stored. -/
def g_object_get_data (table : List (GtkWidget × Nat)) (widget : GtkWidget) : Nat :=
  match table.find? (fun entry => entry.1 == widget) with
  | some entry => entry.2
  | none => 0

/-- `g_timeout_add_full`: attach a new timeout source and return its id. -/
def g_timeout_add_full (ctx : GMainContext) (interval : Nat) (data : ScheduleMenuData) :
    Nat × GMainContext :=
  (ctx.next_id,
   { next_id := ctx.next_id + 1,
     sources := ctx.sources ++ [{ id := ctx.next_id, interval := interval, data := data }] })

/-- Look an attached source up by id. -/
def g_main_context_find_source_by_id (ctx : GMainContext) (tag : Nat) : Option GSource :=
  ctx.sources.find? (fun src => src.id == tag)

/-- `g_source_remove`: detach the source with id `tag`; the result tells whether
such a source was attached. -/
def g_source_remove (ctx : GMainContext) (tag : Nat) : Bool × GMainContext :=
  ((g_main_context_find_source_by_id ctx tag).isSome,
   { ctx with sources := ctx.sources.filter (fun src => src.id != tag) })

/-- The ids of the timeout sources that are still attached. -/
def outstanding (self : NautilusToolbar) : List Nat :=
  self.context.sources.map (fun src => src.id)

/-! ## Appearance -/

/-- `toolbar_update_appearance`: the location entry is shown when the toolbar's
flag or the preference asks for it, the path bar otherwise. -/
def toolbar_update_appearance (self : NautilusToolbar) : NautilusToolbar :=
  let show_location_entry := self.priv.show_location_entry || self.always_use_location_entry
  { self with
    location_entry_visible := show_location_entry,
    path_bar_visible := !show_location_entry }

/-- `nautilus_toolbar_set_show_location_entry`. -/
def nautilus_toolbar_set_show_location_entry (self : NautilusToolbar)
    (show_location_entry : Bool) : NautilusToolbar :=
  if show_location_entry != self.priv.show_location_entry then
    let self := { self with priv := { self.priv with show_location_entry := show_location_entry } }
    let self := toolbar_update_appearance self
    { self with notifications := self.notifications + 1 }
  else
    self

/-! ## History menus -/

/-- `++index` on a C `int`, with two's-complement wrap-around. -/
def int_incr (index : Int) : Int :=
  (index + 1 + 2 ^ 31) % 2 ^ 32 - 2 ^ 31

/-- `activate_back_or_forward_menu_item`: read the item's `"user_data"` and call
`nautilus_window_back_or_forward` with it; `flags` is the value of
`nautilus_event_get_window_open_flags ()` at that moment. -/
def activate_back_or_forward_menu_item (menu_item : GtkMenuItem) (back : Bool) (flags : Nat) :
    BackOrForwardCall :=
  let index := menu_item.user_data
  { back := back, distance := index, flags := flags }

/-- `activate_back_menu_item_callback`. -/
def activate_back_menu_item_callback (menu_item : GtkMenuItem) (flags : Nat) :
    BackOrForwardCall :=
  activate_back_or_forward_menu_item menu_item true flags

/-- `activate_forward_menu_item_callback`. -/
def activate_forward_menu_item_callback (menu_item : GtkMenuItem) (flags : Nat) :
    BackOrForwardCall :=
  activate_back_or_forward_menu_item menu_item false flags

/-- Emission of "activate" on a menu item: run the connected handler. -/
def gtk_menu_item_activate (menu_item : GtkMenuItem) (flags : Nat) : BackOrForwardCall :=
  match menu_item.handler with
  | .activate_back_menu_item_callback => activate_back_menu_item_callback menu_item flags
  | .activate_forward_menu_item_callback => activate_forward_menu_item_callback menu_item flags

/-- The `while (list != NULL)` loop of `fill_menu`. -/
def fill_menu_loop (back : Bool) :
    List NautilusBookmark → Int → List GtkMenuItem → List GtkMenuItem
  | [], _, menu => menu
  | data :: list, index, menu =>
    let menu_item : GtkMenuItem :=
      { bookmark := data,
        user_data := index,
        handler := if back then .activate_back_menu_item_callback
                   else .activate_forward_menu_item_callback }
    fill_menu_loop back list (int_incr index) (menu ++ [menu_item])

/-- `fill_menu`: append one item per entry of the active slot's history in the
requested direction. -/
def fill_menu (window : NautilusWindow) (menu : List GtkMenuItem) (back : Bool) :
    List GtkMenuItem :=
  let list := if back then window.back_history else window.forward_history
  fill_menu_loop back list 0 menu

/-- A `GdkRectangle` / `GtkAllocation`. -/
structure GdkRectangle where
  x : Int
  y : Int
  width : Int
  height : Int
deriving DecidableEq, Repr

/-- A `GtkRequisition`. -/
structure GtkRequisition where
  width : Int
  height : Int
deriving DecidableEq, Repr

/-- What `menu_position_func` reads from the toolkit: the origin of the anchor's
window, the anchor's allocation, the menu's preferred size, the work area of
the monitor and whether the anchor's text direction is right-to-left. -/
structure MenuPlacement where
  origin_x : Int
  origin_y : Int
  allocation : GdkRectangle
  menu_req : GtkRequisition
  monitor : GdkRectangle
  rtl : Bool
deriving DecidableEq, Repr

/-- The C macro `MAX (a, b)`. -/
def MAX (a b : Int) : Int := if a > b then a else b

/-- `menu_position_func`: the resulting `*x`, `*y` and `*push_in`. -/
def menu_position_func (g : MenuPlacement) : Int × Int × Bool :=
  let x := g.origin_x
  let y := g.origin_y
  let x := x + g.allocation.x
  let y := y + g.allocation.y
  let x :=
    if g.rtl then x - MAX (g.menu_req.width - g.allocation.width) 0
    else x + MAX (g.allocation.width - g.menu_req.width) 0
  let y :=
    if y + g.allocation.height + g.menu_req.height ≤ g.monitor.y + g.monitor.height then
      y + g.allocation.height
    else if y - g.menu_req.height ≥ g.monitor.y then
      y - g.menu_req.height
    else if g.monitor.y + g.monitor.height - (y + g.allocation.height) > y then
      y + g.allocation.height
    else
      y - g.menu_req.height
  (x, y, false)

/-- `gtk_menu_popup`: recorded in the log. -/
def gtk_menu_popup (self : NautilusToolbar) (menu : List GtkMenuItem) (widget : GtkWidget)
    (button : Nat) (activate_time : Nat) : NautilusToolbar :=
  { self with
    popups := self.popups ++
      [{ items := menu, anchor := widget, button := button, activate_time := activate_time }] }

/-- `show_menu`: `none` stands for reaching `g_assert_not_reached ()`. -/
def show_menu (self : NautilusToolbar) (widget : GtkWidget) (button : Nat) (event_time : Nat) :
    Option NautilusToolbar :=
  let window := self.priv.window
  let menu : List GtkMenuItem := []
  let direction := g_object_get_data self.nav_direction widget
  if direction = NAUTILUS_NAVIGATION_DIRECTION_FORWARD then
    some (gtk_menu_popup self (fill_menu window menu false) widget button event_time)
  else if direction = NAUTILUS_NAVIGATION_DIRECTION_BACK then
    some (gtk_menu_popup self (fill_menu window menu true) widget button event_time)
  else
    none

/-! ## The deferred popup timer -/

/-- `popup_menu_timeout_cb`: show the menu for the stored widget with button 1
and the current event time, and return `FALSE`. -/
def popup_menu_timeout_cb (self : NautilusToolbar) (data : ScheduleMenuData)
    (current_event_time : Nat) : Option (NautilusToolbar × Bool) :=
  (show_menu self data.widget 1 current_event_time).map (fun self => (self, false))

/-- `unschedule_menu_popup_timeout`. -/
def unschedule_menu_popup_timeout (self : NautilusToolbar) : NautilusToolbar :=
  if self.priv.popup_timeout_id ≠ 0 then
    { self with
      context := (g_source_remove self.context self.priv.popup_timeout_id).2,
      priv := { self.priv with popup_timeout_id := 0 } }
  else
    self

/-- `schedule_menu_popup_timeout`. -/
def schedule_menu_popup_timeout (self : NautilusToolbar) (widget : GtkWidget) :
    NautilusToolbar :=
  let self := unschedule_menu_popup_timeout self
  let data : ScheduleMenuData := { widget := widget }
  let added := g_timeout_add_full self.context MENU_POPUP_TIMEOUT data
  { self with
    context := added.2,
    priv := { self.priv with popup_timeout_id := added.1 } }

/-- `navigation_button_press_cb`: the new state and the handler's return value. -/
def navigation_button_press_cb (self : NautilusToolbar) (button : GtkWidget)
    (event : GdkEventButton) : Option (NautilusToolbar × Bool) :=
  if event.button = 3 then
    (show_menu self button event.button event.time).map (fun self => (self, true))
  else if event.button = 1 then
    some (schedule_menu_popup_timeout self button, false)
  else
    some (self, false)

/-- `navigation_button_release_cb`: the new state and the handler's return value. -/
def navigation_button_release_cb (self : NautilusToolbar) (_button : GtkWidget)
    (_event : GdkEventButton) : NautilusToolbar × Bool :=
  (unschedule_menu_popup_timeout self, false)

/-- `nautilus_toolbar_set_window`. -/
def nautilus_toolbar_set_window (self : NautilusToolbar) (window : NautilusWindow) :
    NautilusToolbar :=
  { self with priv := { self.priv with window := window } }

/-- `nautilus_toolbar_dispose`: cancel the popup timer.  Disconnecting the
preference handler and chaining up to the parent class touch nothing that is
embedded here. -/
def nautilus_toolbar_dispose (self : NautilusToolbar) : NautilusToolbar :=
  unschedule_menu_popup_timeout self

/-- `nautilus_toolbar_init`, for the template children `back_button` and
`forward_button`: a zero-filled private struct, the two "nav-direction" tags,
no timeout source, everything shown and then `toolbar_update_appearance`.
The window is the value of the "window" property, taken as given. -/
def nautilus_toolbar_init (window : NautilusWindow) (back_button forward_button : GtkWidget)
    (always_use_location_entry : Bool) : NautilusToolbar :=
  let table := g_object_set_data [] back_button NAUTILUS_NAVIGATION_DIRECTION_BACK
  let table := g_object_set_data table forward_button NAUTILUS_NAVIGATION_DIRECTION_FORWARD
  toolbar_update_appearance
    { priv :=
        { window := window,
          show_location_entry := false,
          popup_timeout_id := 0,
          forward_button := forward_button,
          back_button := back_button },
      context := { next_id := 1, sources := [] },
      nav_direction := table,
      popups := [],
      location_entry_visible := true,
      path_bar_visible := true,
      always_use_location_entry := always_use_location_entry,
      notifications := 0 }

/-- The main loop dispatching the timeout source `tag`: possible only while the
source is attached; the callback runs and, as it returns `FALSE`, the source is
detached.  `none` when the source is not attached or the callback aborts. -/
def g_main_dispatch (self : NautilusToolbar) (tag : Nat) (current_event_time : Nat) :
    Option NautilusToolbar :=
  match g_main_context_find_source_by_id self.context tag with
  | none => none
  | some source =>
    match popup_menu_timeout_cb self source.data current_event_time with
    | none => none
    | some (self, true) => some self
    | some (self, false) => some { self with context := (g_source_remove self.context tag).2 }

/-- What can happen to a toolbar. -/
inductive Event where
  | button_press (button : GtkWidget) (event : GdkEventButton)
  | button_release (button : GtkWidget) (event : GdkEventButton)
  | timeout (tag : Nat) (current_event_time : Nat)
  | set_window (window : NautilusWindow)
  | set_show_location_entry (show_location_entry : Bool)
  | dispose
deriving DecidableEq, Repr

/-- One step of the toolbar; `none` when the event cannot happen in this state
(a timeout of a source that is not attached) or the handler aborts. -/
def step (self : NautilusToolbar) : Event → Option NautilusToolbar
  | .button_press button event => (navigation_button_press_cb self button event).map (fun r => r.1)
  | .button_release button event => some (navigation_button_release_cb self button event).1
  | .timeout tag current_event_time => g_main_dispatch self tag current_event_time
  | .set_window window => some (nautilus_toolbar_set_window self window)
  | .set_show_location_entry v => some (nautilus_toolbar_set_show_location_entry self v)
  | .dispose => some (nautilus_toolbar_dispose self)

/-- Run a sequence of events. -/
def run (self : NautilusToolbar) : List Event → Option NautilusToolbar
  | [] => some self
  | e :: es => (step self e).bind (fun self => run self es)

/-- The states a toolbar can be in: those `nautilus_toolbar_init` produces and
those reached from them by events. -/
inductive Reachable : NautilusToolbar → Prop where
  | init (window : NautilusWindow) (back_button forward_button : GtkWidget)
      (always_use_location_entry : Bool) :
      Reachable (nautilus_toolbar_init window back_button forward_button always_use_location_entry)
  | step {self next : NautilusToolbar} (e : Event) :
      Reachable self → step self e = some next → Reachable next

/-! ## Invariants of the timer bookkeeping -/

/-- The timer bookkeeping of a toolbar: ids are positive and below the counter,
every attached source is the one `popup_timeout_id` names, and there is at most
one of them. -/
def TimerInv (self : NautilusToolbar) : Prop :=
  0 < self.context.next_id ∧
  self.priv.popup_timeout_id < self.context.next_id ∧
  (∀ src ∈ self.context.sources, src.id = self.priv.popup_timeout_id ∧ 0 < src.id) ∧
  self.context.sources.length ≤ 1

/-- The handle `tag` was handed out earlier and its source is no longer attached. -/
def Retired (tag : Nat) (self : NautilusToolbar) : Prop :=
  tag < self.context.next_id ∧ tag ∉ outstanding self

/-- The buttons of the toolbar carry their "nav-direction" tags. -/
def Tagged (self : NautilusToolbar) : Prop :=
  g_object_get_data self.nav_direction self.priv.back_button
      = NAUTILUS_NAVIGATION_DIRECTION_BACK ∧
  g_object_get_data self.nav_direction self.priv.forward_button
      = NAUTILUS_NAVIGATION_DIRECTION_FORWARD

/-- What the placement rule of the specification gives for `*y`: below the
button when the menu fits below inside the work area, otherwise above it when
it fits above inside the work area, otherwise the side with more vertical space
inside the work area (above on a tie). -/
def menu_y_spec (g : MenuPlacement) : Int :=
  let top := g.origin_y + g.allocation.y
  let below := top + g.allocation.height
  let above := top - g.menu_req.height
  let work_top := g.monitor.y
  let work_bottom := g.monitor.y + g.monitor.height
  let space_below := work_bottom - below
  let space_above := top - work_top
  if below + g.menu_req.height ≤ work_bottom then below
  else if work_top ≤ above then above
  else if space_below > space_above then below
  else above

/-- The handle invariant of the specification: `popup_timeout_id` is 0 or it is
the handle of the one timeout source that is still attached. -/
def HandleValid (self : NautilusToolbar) : Prop :=
  self.priv.popup_timeout_id = 0 ∨ outstanding self = [self.priv.popup_timeout_id]

/-! ## Concrete toolbars used for evaluation -/

/-- A window with three back entries and two forward entries. -/
def example_window : NautilusWindow :=
  { back_history := [10, 11, 12], forward_history := [20, 21] }

/-- A freshly initialised toolbar: back button 7, forward button 8. -/
def example_toolbar : NautilusToolbar :=
  nautilus_toolbar_init example_window 7 8 false

/-- The example toolbar after a primary-button press on the back button. -/
def pending_toolbar : NautilusToolbar :=
  schedule_menu_popup_timeout example_toolbar 7

/-- The pending toolbar after its timer has fired at time 1300. -/
def fired_toolbar : NautilusToolbar :=
  (g_main_dispatch pending_toolbar 1 1300).getD pending_toolbar

/-- A placement on a monitor whose work area starts at y = 1080 (a monitor
below another one): button top at 1480, 40 high, menu 700 high. -/
def example_placement : MenuPlacement :=
  { origin_x := 0, origin_y := 0,
    allocation := { x := 100, y := 1480, width := 40, height := 40 },
    menu_req := { width := 200, height := 700 },
    monitor := { x := 0, y := 1080, width := 1920, height := 1080 },
    rtl := false }

/-! ## Helper lemmas -/

theorem show_menu_eq_some {self next : NautilusToolbar} {widget : GtkWidget}
    {button event_time : Nat} (h : show_menu self widget button event_time = some next) :
    ∃ back : Bool,
      next = gtk_menu_popup self (fill_menu self.priv.window [] back) widget button event_time := by
  unfold show_menu at h
  simp only [] at h
  split_ifs at h with h1 h2
  · exact ⟨false, (Option.some.inj h).symm⟩
  · exact ⟨true, (Option.some.inj h).symm⟩

theorem show_menu_frame {self next : NautilusToolbar} {widget : GtkWidget}
    {button event_time : Nat} (h : show_menu self widget button event_time = some next) :
    next.priv = self.priv ∧ next.context = self.context ∧
      next.nav_direction = self.nav_direction := by
  obtain ⟨back, rfl⟩ := show_menu_eq_some h
  exact ⟨rfl, rfl, rfl⟩

theorem mem_filter_sources {ctx : GMainContext} {tag : Nat} {src : GSource}
    (h : src ∈ (g_source_remove ctx tag).2.sources) : src ∈ ctx.sources ∧ src.id ≠ tag := by
  simp only [g_source_remove, List.mem_filter, bne_iff_ne, ne_eq] at h
  exact h

theorem unschedule_sources_nil {self : NautilusToolbar} (h : TimerInv self) :
    (unschedule_menu_popup_timeout self).context.sources = [] := by
  obtain ⟨_, _, hsrc, _⟩ := h
  unfold unschedule_menu_popup_timeout
  split_ifs with h0
  · simp only [g_source_remove]
    rw [List.filter_eq_nil_iff]
    intro src hmem
    simp [(hsrc src hmem).1]
  · push_neg at h0
    rcases hs : self.context.sources with _ | ⟨src, rest⟩
    · rfl
    · have := hsrc src (by rw [hs]; exact List.mem_cons_self _ _)
      omega

theorem unschedule_priv (self : NautilusToolbar) :
    (unschedule_menu_popup_timeout self).priv = { self.priv with popup_timeout_id := 0 } := by
  unfold unschedule_menu_popup_timeout
  split_ifs with h0
  · rfl
  · push_neg at h0
    cases self with
    | mk priv _ _ _ _ _ _ _ =>
      cases priv
      simp only at h0
      simp [h0]

theorem unschedule_next_id (self : NautilusToolbar) :
    (unschedule_menu_popup_timeout self).context.next_id = self.context.next_id := by
  unfold unschedule_menu_popup_timeout
  split_ifs <;> rfl

theorem unschedule_inv {self : NautilusToolbar} (h : TimerInv self) :
    TimerInv (unschedule_menu_popup_timeout self) := by
  refine ⟨?_, ?_, ?_, ?_⟩
  · rw [unschedule_next_id]; exact h.1
  · rw [unschedule_next_id, unschedule_priv]; exact h.1
  · rw [unschedule_sources_nil h]; simp
  · rw [unschedule_sources_nil h]; simp

theorem schedule_inv {self : NautilusToolbar} (h : TimerInv self) (widget : GtkWidget) :
    TimerInv (schedule_menu_popup_timeout self widget) := by
  have hu := unschedule_inv h
  have hn := unschedule_sources_nil h
  simp only [schedule_menu_popup_timeout, g_timeout_add_full, TimerInv, hn, List.nil_append,
    List.mem_singleton, forall_eq, List.length_singleton, le_refl, and_true, true_and]
  have := hu.1
  omega

theorem dispatch_eq_some {self next : NautilusToolbar} {tag now : Nat}
    (h : g_main_dispatch self tag now = some next) :
    (∃ src, g_main_context_find_source_by_id self.context tag = some src) ∧
    next.priv = self.priv ∧ next.nav_direction = self.nav_direction ∧
    next.context = (g_source_remove self.context tag).2 := by
  unfold g_main_dispatch at h
  split at h
  · exact absurd h (by simp)
  · rename_i src hsrc
    unfold popup_menu_timeout_cb at h
    cases hm : show_menu self src.data.widget 1 now with
    | none => simp [hm] at h
    | some mid =>
      simp only [hm, Option.map_some'] at h
      obtain ⟨hp, hc, hd⟩ := show_menu_frame hm
      have h := Option.some.inj h
      subst h
      exact ⟨⟨src, hsrc⟩, hp, hd, by simp [hc]⟩

theorem step_inv {self next : NautilusToolbar} {e : Event} (h : TimerInv self)
    (hstep : step self e = some next) : TimerInv next := by
  cases e with
  | button_press button event =>
    simp only [step, navigation_button_press_cb] at hstep
    split_ifs at hstep with h3 h1
    · cases hm : show_menu self button event.button event.time with
      | none => simp [hm] at hstep
      | some mid =>
        simp only [hm, Option.map_some', Option.some.injEq] at hstep
        subst hstep
        obtain ⟨hp, hc, _⟩ := show_menu_frame hm
        simpa [TimerInv, hp, hc] using h
    · simp only [Option.map_some', Option.some.injEq] at hstep
      subst hstep
      exact schedule_inv h button
    · simp only [Option.map_some', Option.some.injEq] at hstep
      subst hstep
      exact h
  | button_release button event =>
    simp only [step, navigation_button_release_cb, Option.some.injEq] at hstep
    subst hstep
    exact unschedule_inv h
  | timeout tag now =>
    simp only [step] at hstep
    obtain ⟨_, hp, _, hc⟩ := dispatch_eq_some hstep
    obtain ⟨h1, h2, h3, h4⟩ := h
    refine ⟨?_, ?_, ?_, ?_⟩
    · rw [hc]; exact h1
    · rw [hc, hp]; exact h2
    · intro src hmem
      rw [hc] at hmem
      rw [hp]
      exact h3 src (mem_filter_sources hmem).1
    · rw [hc]
      exact le_trans (List.length_filter_le _ _) h4
  | set_window window =>
    simp only [step, nautilus_toolbar_set_window, Option.some.injEq] at hstep
    subst hstep
    exact h
  | set_show_location_entry v =>
    simp only [step, nautilus_toolbar_set_show_location_entry, toolbar_update_appearance,
      Option.some.injEq] at hstep
    subst hstep
    split_ifs
    · exact h
    · exact h
  | dispose =>
    simp only [step, nautilus_toolbar_dispose, Option.some.injEq] at hstep
    subst hstep
    exact unschedule_inv h

theorem init_inv (window : NautilusWindow) (back_button forward_button : GtkWidget)
    (always_use_location_entry : Bool) :
    TimerInv (nautilus_toolbar_init window back_button forward_button
      always_use_location_entry) := by
  simp [TimerInv, nautilus_toolbar_init, toolbar_update_appearance]

theorem reachable_inv {self : NautilusToolbar} (h : Reachable self) : TimerInv self := by
  induction h with
  | init window b f p => exact init_inv window b f p
  | step e _ hstep ih => exact step_inv ih hstep

theorem run_inv {self next : NautilusToolbar} (es : List Event) (h : TimerInv self)
    (hrun : run self es = some next) : TimerInv next := by
  induction es generalizing self with
  | nil =>
    simp only [run, Option.some.injEq] at hrun
    subst hrun
    exact h
  | cons e es ih =>
    simp only [run] at hrun
    cases hs : step self e with
    | none => simp [hs] at hrun
    | some mid =>
      simp only [hs, Option.some_bind] at hrun
      exact ih (step_inv h hs) hrun

theorem run_reachable {self next : NautilusToolbar} (es : List Event) (h : Reachable self)
    (hrun : run self es = some next) : Reachable next := by
  induction es generalizing self with
  | nil =>
    simp only [run, Option.some.injEq] at hrun
    subst hrun
    exact h
  | cons e es ih =>
    simp only [run] at hrun
    cases hs : step self e with
    | none => simp [hs] at hrun
    | some mid =>
      simp only [hs, Option.some_bind] at hrun
      exact ih (Reachable.step e h hs) hrun

theorem unschedule_outstanding_subset (self : NautilusToolbar) :
    ∀ tag ∈ outstanding (unschedule_menu_popup_timeout self), tag ∈ outstanding self := by
  intro tag h
  unfold unschedule_menu_popup_timeout at h
  split_ifs at h with h0
  · simp only [outstanding, g_source_remove, List.mem_map, List.mem_filter] at h ⊢
    obtain ⟨src, ⟨hmem, _⟩, hid⟩ := h
    exact ⟨src, hmem, hid⟩
  · exact h

theorem unschedule_retired {tag : Nat} {self : NautilusToolbar} (h : Retired tag self) :
    Retired tag (unschedule_menu_popup_timeout self) :=
  ⟨by rw [unschedule_next_id]; exact h.1, fun hmem => h.2 (unschedule_outstanding_subset self tag hmem)⟩

theorem not_found_of_retired {tag : Nat} {self : NautilusToolbar} (h : Retired tag self) :
    g_main_context_find_source_by_id self.context tag = none := by
  unfold g_main_context_find_source_by_id
  rw [List.find?_eq_none]
  intro src hmem hid
  apply h.2
  simp only [outstanding, List.mem_map]
  exact ⟨src, hmem, by simpa using hid⟩

theorem step_retired {tag : Nat} {self next : NautilusToolbar} {e : Event}
    (h : Retired tag self) (hstep : step self e = some next) :
    Retired tag next ∧ ∀ now, e ≠ Event.timeout tag now := by
  cases e with
  | button_press button event =>
    refine ⟨?_, fun _ => by simp⟩
    simp only [step, navigation_button_press_cb] at hstep
    split_ifs at hstep with h3 h1
    · cases hm : show_menu self button event.button event.time with
      | none => simp [hm] at hstep
      | some mid =>
        simp only [hm, Option.map_some', Option.some.injEq] at hstep
        subst hstep
        obtain ⟨_, hc, _⟩ := show_menu_frame hm
        simpa [Retired, outstanding, hc] using h
    · simp only [Option.map_some', Option.some.injEq] at hstep
      subst hstep
      have hu := unschedule_retired h
      obtain ⟨hu1, hu2⟩ := hu
      simp only [outstanding] at hu2
      simp only [Retired, outstanding, schedule_menu_popup_timeout, g_timeout_add_full,
        List.map_append, List.map_cons, List.map_nil, List.mem_append, List.mem_singleton]
      refine ⟨by omega, ?_⟩
      rintro (hmem | heq)
      · exact hu2 hmem
      · omega
    · simp only [Option.map_some', Option.some.injEq] at hstep
      subst hstep
      exact h
  | button_release button event =>
    refine ⟨?_, fun _ => by simp⟩
    simp only [step, navigation_button_release_cb, Option.some.injEq] at hstep
    subst hstep
    exact unschedule_retired h
  | timeout tag2 now =>
    simp only [step] at hstep
    obtain ⟨⟨src, hfound⟩, _, _, hc⟩ := dispatch_eq_some hstep
    constructor
    · refine ⟨by rw [hc]; exact h.1, ?_⟩
      intro hmem
      apply h.2
      simp only [outstanding, List.mem_map] at hmem ⊢
      obtain ⟨src2, hmem2, hid⟩ := hmem
      rw [hc] at hmem2
      exact ⟨src2, (mem_filter_sources hmem2).1, hid⟩
    · intro now2 heq
      simp only [Event.timeout.injEq] at heq
      rw [heq.1, not_found_of_retired h] at hfound
      exact absurd hfound (by simp)
  | set_window window =>
    refine ⟨?_, fun _ => by simp⟩
    simp only [step, nautilus_toolbar_set_window, Option.some.injEq] at hstep
    subst hstep
    exact h
  | set_show_location_entry v =>
    refine ⟨?_, fun _ => by simp⟩
    simp only [step, nautilus_toolbar_set_show_location_entry, toolbar_update_appearance,
      Option.some.injEq] at hstep
    subst hstep
    split_ifs
    · exact h
    · exact h
  | dispose =>
    refine ⟨?_, fun _ => by simp⟩
    simp only [step, nautilus_toolbar_dispose, Option.some.injEq] at hstep
    subst hstep
    exact unschedule_retired h

theorem run_retired {tag : Nat} {self next : NautilusToolbar} (es : List Event)
    (h : Retired tag self) (hrun : run self es = some next) :
    Retired tag next ∧ ∀ now, Event.timeout tag now ∉ es := by
  induction es generalizing self with
  | nil =>
    simp only [run, Option.some.injEq] at hrun
    subst hrun
    exact ⟨h, fun _ => by simp⟩
  | cons e es ih =>
    simp only [run] at hrun
    cases hs : step self e with
    | none => simp [hs] at hrun
    | some mid =>
      simp only [hs, Option.some_bind] at hrun
      obtain ⟨hr, hne⟩ := step_retired h hs
      obtain ⟨hfin, hnot⟩ := ih hr hrun
      refine ⟨hfin, fun now hmem => ?_⟩
      rcases List.mem_cons.mp hmem with heq | htail
      · exact hne now heq.symm
      · exact hnot now htail

theorem example_toolbar_reachable : Reachable example_toolbar :=
  Reachable.init example_window 7 8 false

theorem pending_toolbar_reachable : Reachable pending_toolbar :=
  Reachable.step (Event.button_press 7 { button := 1, time := 100 })
    example_toolbar_reachable rfl

/-! ## C1: right-click on a navigation button -/

/-- C1, as stated, fails: on the toolbar with a pending timer (handle 1), a
right-click on the back button shows the menu and returns TRUE, but the timer
stays attached and `popup_timeout_id` is still 1, not 0. -/
theorem right_click_keeps_pending_timer :
    Reachable pending_toolbar ∧
    pending_toolbar.priv.popup_timeout_id = 1 ∧
    outstanding pending_toolbar = [1] ∧
    navigation_button_press_cb pending_toolbar 7 { button := 3, time := 200 }
      = some (gtk_menu_popup pending_toolbar (fill_menu example_window [] true) 7 3 200, true) ∧
    (gtk_menu_popup pending_toolbar (fill_menu example_window [] true) 7 3 200).priv.popup_timeout_id
      = 1 ∧
    (gtk_menu_popup pending_toolbar (fill_menu example_window [] true) 7 3 200).priv.popup_timeout_id
      ≠ 0 ∧
    outstanding (gtk_menu_popup pending_toolbar (fill_menu example_window [] true) 7 3 200)
      = [1] :=
  ⟨pending_toolbar_reachable, rfl, rfl, rfl, rfl, by decide, rfl⟩

/-- C1, amended: for every toolbar state and every button tagged BACK or
FORWARD, `navigation_button_press_cb` with event button 3 pops up, at once, the
history menu of the button's direction, anchored to that button, with the
event's button id and time, and returns TRUE; `popup_timeout_id` and the
attached timeout sources are left exactly as they were. -/
theorem navigation_button_press_cb_right_click (self : NautilusToolbar) (button : GtkWidget)
    (event : GdkEventButton) (h3 : event.button = 3)
    (hdir : g_object_get_data self.nav_direction button = NAUTILUS_NAVIGATION_DIRECTION_BACK ∨
      g_object_get_data self.nav_direction button = NAUTILUS_NAVIGATION_DIRECTION_FORWARD) :
    ∃ next, navigation_button_press_cb self button event = some (next, true) ∧
      next.popups = self.popups ++
        [{ items := fill_menu self.priv.window []
             (decide (g_object_get_data self.nav_direction button
               = NAUTILUS_NAVIGATION_DIRECTION_BACK)),
           anchor := button, button := event.button, activate_time := event.time }] ∧
      next.priv.popup_timeout_id = self.priv.popup_timeout_id ∧
      next.context = self.context ∧
      outstanding next = outstanding self := by
  rcases hdir with hb | hf
  · refine ⟨gtk_menu_popup self (fill_menu self.priv.window [] true) button event.button
      event.time, ?_, ?_, rfl, rfl, rfl⟩
    · simp [navigation_button_press_cb, h3, show_menu, hb, NAUTILUS_NAVIGATION_DIRECTION_BACK,
        NAUTILUS_NAVIGATION_DIRECTION_FORWARD]
    · simp [gtk_menu_popup, hb]
  · refine ⟨gtk_menu_popup self (fill_menu self.priv.window [] false) button event.button
      event.time, ?_, ?_, rfl, rfl, rfl⟩
    · simp [navigation_button_press_cb, h3, show_menu, hf]
    · simp [gtk_menu_popup, hf, NAUTILUS_NAVIGATION_DIRECTION_BACK,
        NAUTILUS_NAVIGATION_DIRECTION_FORWARD]

/-- The amended C1 at the pending toolbar, right-click on the back button. -/
theorem navigation_button_press_cb_right_click_witness :
    (⟨3, 200⟩ : GdkEventButton).button = 3 ∧
    (g_object_get_data pending_toolbar.nav_direction 7 = NAUTILUS_NAVIGATION_DIRECTION_BACK ∨
      g_object_get_data pending_toolbar.nav_direction 7
        = NAUTILUS_NAVIGATION_DIRECTION_FORWARD) ∧
    ∃ next, navigation_button_press_cb pending_toolbar 7 ⟨3, 200⟩ = some (next, true) ∧
      next.popups = pending_toolbar.popups ++
        [{ items := fill_menu pending_toolbar.priv.window []
             (decide (g_object_get_data pending_toolbar.nav_direction 7
               = NAUTILUS_NAVIGATION_DIRECTION_BACK)),
           anchor := 7, button := 3, activate_time := 200 }] ∧
      next.priv.popup_timeout_id = pending_toolbar.priv.popup_timeout_id ∧
      next.context = pending_toolbar.context ∧
      outstanding next = outstanding pending_toolbar :=
  ⟨rfl, Or.inl rfl,
    navigation_button_press_cb_right_click pending_toolbar 7 ⟨3, 200⟩ rfl (Or.inl rfl)⟩

/-! ## C3: primary-button press -/

/-- C3: for every toolbar state, `navigation_button_press_cb` with event button
1 returns FALSE and leaves the state of `schedule_menu_popup_timeout`: the
source named by a non-zero `popup_timeout_id` is detached first, then exactly
one source is attached, with interval 1200 and the pressed button as its data,
and its handle is stored in `popup_timeout_id`.  In a reachable state that new
source is the only one attached and the old handle is gone; after any sequence
of presses from a reachable state at most one source is attached; and a second
primary press detaches the source of the first and attaches a fresh one with
interval 1200. -/
theorem navigation_button_press_cb_primary (self : NautilusToolbar) (button : GtkWidget)
    (event : GdkEventButton) (h1 : event.button = 1) :
    navigation_button_press_cb self button event
      = some (schedule_menu_popup_timeout self button, false) ∧
    (schedule_menu_popup_timeout self button).priv.popup_timeout_id = self.context.next_id ∧
    (schedule_menu_popup_timeout self button).context.sources
      = (if self.priv.popup_timeout_id ≠ 0 then
          self.context.sources.filter (fun src => src.id != self.priv.popup_timeout_id)
         else self.context.sources)
        ++ [{ id := self.context.next_id, interval := 1200, data := { widget := button } }] ∧
    (Reachable self →
      (schedule_menu_popup_timeout self button).context.sources
        = [{ id := self.context.next_id, interval := 1200, data := { widget := button } }] ∧
      self.priv.popup_timeout_id ∉ outstanding (schedule_menu_popup_timeout self button) ∧
      (∀ (presses : List (GtkWidget × GdkEventButton)) (final : NautilusToolbar),
        run self (presses.map (fun p => Event.button_press p.1 p.2)) = some final →
        (outstanding final).length ≤ 1) ∧
      (∀ (button2 : GtkWidget) (event2 : GdkEventButton), event2.button = 1 →
        navigation_button_press_cb (schedule_menu_popup_timeout self button) button2 event2
          = some (schedule_menu_popup_timeout (schedule_menu_popup_timeout self button) button2,
              false) ∧
        self.context.next_id ∉
          outstanding (schedule_menu_popup_timeout (schedule_menu_popup_timeout self button)
            button2) ∧
        (schedule_menu_popup_timeout (schedule_menu_popup_timeout self button)
            button2).context.sources
          = [{ id := self.context.next_id + 1, interval := 1200,
               data := { widget := button2 } }])) := by
  have hpress : ∀ (s : NautilusToolbar) (b : GtkWidget) (ev : GdkEventButton), ev.button = 1 →
      navigation_button_press_cb s b ev = some (schedule_menu_popup_timeout s b, false) := by
    intro s b ev hev
    simp [navigation_button_press_cb, hev]
  have hsingle : ∀ (s : NautilusToolbar) (b : GtkWidget), TimerInv s →
      (schedule_menu_popup_timeout s b).context.sources
        = [{ id := s.context.next_id, interval := 1200, data := { widget := b } }] := by
    intro s b hs
    simp [schedule_menu_popup_timeout, g_timeout_add_full, unschedule_sources_nil hs,
      unschedule_next_id, MENU_POPUP_TIMEOUT]
  refine ⟨hpress self button event h1, ?_, ?_, ?_⟩
  · simp [schedule_menu_popup_timeout, g_timeout_add_full, unschedule_next_id]
  · simp only [schedule_menu_popup_timeout, g_timeout_add_full, unschedule_next_id,
      MENU_POPUP_TIMEOUT]
    unfold unschedule_menu_popup_timeout
    split_ifs <;> simp [g_source_remove]
  · intro hreach
    have hinv := reachable_inv hreach
    have hinv2 := schedule_inv hinv button
    have hnext : (schedule_menu_popup_timeout self button).context.next_id
        = self.context.next_id + 1 := by
      simp [schedule_menu_popup_timeout, g_timeout_add_full, unschedule_next_id]
    refine ⟨hsingle self button hinv, ?_, ?_, ?_⟩
    · have := hinv.2.1
      simp only [outstanding, hsingle self button hinv, List.map_cons, List.map_nil,
        List.mem_singleton]
      omega
    · intro presses final hrun
      have := (run_inv _ hinv hrun).2.2.2
      simpa [outstanding] using this
    · intro button2 event2 h2
      refine ⟨hpress _ button2 event2 h2, ?_, ?_⟩
      · simp only [outstanding, hsingle _ button2 hinv2, hnext, List.map_cons, List.map_nil,
          List.mem_singleton]
        omega
      · rw [hsingle _ button2 hinv2, hnext]

/-- C3 at the freshly initialised toolbar: a primary press on the back button. -/
theorem navigation_button_press_cb_primary_witness :
    (⟨1, 100⟩ : GdkEventButton).button = 1 ∧
    navigation_button_press_cb example_toolbar 7 ⟨1, 100⟩
      = some (schedule_menu_popup_timeout example_toolbar 7, false) ∧
    (schedule_menu_popup_timeout example_toolbar 7).priv.popup_timeout_id = 1 ∧
    (schedule_menu_popup_timeout example_toolbar 7).context.sources
      = [{ id := 1, interval := 1200, data := { widget := 7 } }] :=
  ⟨rfl, (navigation_button_press_cb_primary example_toolbar 7 ⟨1, 100⟩ rfl).1,
    (navigation_button_press_cb_primary example_toolbar 7 ⟨1, 100⟩ rfl).2.1,
    ((navigation_button_press_cb_primary example_toolbar 7 ⟨1, 100⟩ rfl).2.2.2
      example_toolbar_reachable).1⟩

/-! ## C9: presses of other mouse buttons -/

/-- C9: for every toolbar state and every press event whose button id is
neither 1 nor 3, `navigation_button_press_cb` returns FALSE and the state it
leaves is the state it found: `popup_timeout_id`, the attached timeout sources
and the log of popped-up menus are unchanged. -/
theorem navigation_button_press_cb_other (self : NautilusToolbar) (button : GtkWidget)
    (event : GdkEventButton) (h1 : event.button ≠ 1) (h3 : event.button ≠ 3) :
    navigation_button_press_cb self button event = some (self, false) := by
  simp [navigation_button_press_cb, h1, h3]

/-- C9 at the pending toolbar: a middle-button press on the back button. -/
theorem navigation_button_press_cb_other_witness :
    (⟨2, 150⟩ : GdkEventButton).button ≠ 1 ∧ (⟨2, 150⟩ : GdkEventButton).button ≠ 3 ∧
    navigation_button_press_cb pending_toolbar 7 ⟨2, 150⟩ = some (pending_toolbar, false) :=
  ⟨by decide, by decide,
    navigation_button_press_cb_other pending_toolbar 7 ⟨2, 150⟩ (by decide) (by decide)⟩

theorem step_next_id_le {self next : NautilusToolbar} {e : Event}
    (hstep : step self e = some next) : self.context.next_id ≤ next.context.next_id := by
  cases e with
  | button_press button event =>
    simp only [step, navigation_button_press_cb] at hstep
    split_ifs at hstep with h3 h1
    · cases hm : show_menu self button event.button event.time with
      | none => simp [hm] at hstep
      | some mid =>
        simp only [hm, Option.map_some', Option.some.injEq] at hstep
        subst hstep
        rw [(show_menu_frame hm).2.1]
    · simp only [Option.map_some', Option.some.injEq] at hstep
      subst hstep
      simp [schedule_menu_popup_timeout, g_timeout_add_full, unschedule_next_id]
    · simp only [Option.map_some', Option.some.injEq] at hstep
      subst hstep
      exact le_refl _
  | button_release button event =>
    simp only [step, navigation_button_release_cb, Option.some.injEq] at hstep
    subst hstep
    rw [unschedule_next_id]
  | timeout tag now =>
    simp only [step] at hstep
    rw [(dispatch_eq_some hstep).2.2.2]
    exact le_refl _
  | set_window window =>
    simp only [step, nautilus_toolbar_set_window, Option.some.injEq] at hstep
    subst hstep
    exact le_refl _
  | set_show_location_entry v =>
    simp only [step, nautilus_toolbar_set_show_location_entry, toolbar_update_appearance,
      Option.some.injEq] at hstep
    subst hstep
    split_ifs <;> exact le_refl _
  | dispose =>
    simp only [step, nautilus_toolbar_dispose, Option.some.injEq] at hstep
    subst hstep
    rw [unschedule_next_id]

theorem run_next_id_le {self next : NautilusToolbar} (es : List Event)
    (hrun : run self es = some next) : self.context.next_id ≤ next.context.next_id := by
  induction es generalizing self with
  | nil =>
    simp only [run, Option.some.injEq] at hrun
    subst hrun
    exact le_refl _
  | cons e es ih =>
    simp only [run] at hrun
    cases hs : step self e with
    | none => simp [hs] at hrun
    | some mid =>
      simp only [hs, Option.some_bind] at hrun
      exact le_trans (step_next_id_le hs) (ih hrun)

theorem dispatch_none_of_retired {tag : Nat} {self : NautilusToolbar} (h : Retired tag self)
    (now : Nat) : g_main_dispatch self tag now = none := by
  unfold g_main_dispatch
  rw [not_found_of_retired h]

/-! ## C2: release before the timer fires -/

/-- C2: in a reachable state, let a primary-button press schedule the timer with
handle `next_id`, let any events follow among which that timer does not fire,
and let a release follow.  Then the press returns FALSE with its timer attached,
the release returns FALSE, leaves `popup_timeout_id = 0` and no source attached,
and whatever happens later the timer of that press is never attached again, its
dispatch is impossible, and no timeout event of it occurs anywhere in the run:
its callback never shows the menu. -/
theorem release_cancels_pending_popup (self : NautilusToolbar) (hs : Reachable self)
    (button : GtkWidget) (event : GdkEventButton) (h1 : event.button = 1)
    (between : List Event)
    (hbetween : ∀ now, Event.timeout self.context.next_id now ∉ between)
    (held : NautilusToolbar)
    (hrun : run (schedule_menu_popup_timeout self button) between = some held)
    (button2 : GtkWidget) (event2 : GdkEventButton) :
    navigation_button_press_cb self button event
      = some (schedule_menu_popup_timeout self button, false) ∧
    (schedule_menu_popup_timeout self button).priv.popup_timeout_id = self.context.next_id ∧
    self.context.next_id ∈ outstanding (schedule_menu_popup_timeout self button) ∧
    (navigation_button_release_cb held button2 event2).2 = false ∧
    (navigation_button_release_cb held button2 event2).1.priv.popup_timeout_id = 0 ∧
    outstanding (navigation_button_release_cb held button2 event2).1 = [] ∧
    ∀ (later : List Event) (final : NautilusToolbar),
      run (navigation_button_release_cb held button2 event2).1 later = some final →
      self.context.next_id ∉ outstanding final ∧
      (∀ now, g_main_dispatch final self.context.next_id now = none) ∧
      (∀ now, Event.timeout self.context.next_id now ∉
        between ++ Event.button_release button2 event2 :: later) := by
  have hinv := reachable_inv hs
  have hheld := run_inv between (schedule_inv hinv button) hrun
  have hnext : self.context.next_id < held.context.next_id := by
    have h := run_next_id_le between hrun
    simp only [schedule_menu_popup_timeout, g_timeout_add_full, unschedule_next_id] at h
    omega
  have hnil : outstanding (navigation_button_release_cb held button2 event2).1 = [] := by
    simp [outstanding, navigation_button_release_cb, unschedule_sources_nil hheld]
  have hret : Retired self.context.next_id (navigation_button_release_cb held button2 event2).1 := by
    refine ⟨?_, by rw [hnil]; simp⟩
    simp only [navigation_button_release_cb, unschedule_next_id]
    exact hnext
  refine ⟨by simp [navigation_button_press_cb, h1], ?_, ?_, rfl, ?_, hnil, ?_⟩
  · simp [schedule_menu_popup_timeout, g_timeout_add_full, unschedule_next_id]
  · simp [outstanding, schedule_menu_popup_timeout, g_timeout_add_full, unschedule_next_id]
  · simp [navigation_button_release_cb, unschedule_priv]
  · intro later final hlater
    obtain ⟨hfin, hnot⟩ := run_retired later hret hlater
    refine ⟨hfin.2, fun now => dispatch_none_of_retired hfin now, fun now hmem => ?_⟩
    rcases List.mem_append.mp hmem with hb | hl
    · exact hbetween now hb
    · rcases List.mem_cons.mp hl with heq | htail
      · simp at heq
      · exact hnot now htail

/-- C2 on the example toolbar: press on the back button at 100, release at 600,
then a press of the forward button. -/
theorem release_cancels_pending_popup_witness :
    Reachable example_toolbar ∧ (⟨1, 100⟩ : GdkEventButton).button = 1 ∧
    (∀ now, Event.timeout example_toolbar.context.next_id now ∉ ([] : List Event)) ∧
    run (schedule_menu_popup_timeout example_toolbar 7) [] = some pending_toolbar ∧
    (navigation_button_release_cb pending_toolbar 7 ⟨1, 600⟩).2 = false ∧
    (navigation_button_release_cb pending_toolbar 7 ⟨1, 600⟩).1.priv.popup_timeout_id = 0 ∧
    outstanding (navigation_button_release_cb pending_toolbar 7 ⟨1, 600⟩).1 = [] ∧
    (∀ final, run (navigation_button_release_cb pending_toolbar 7 ⟨1, 600⟩).1
        [Event.button_press 8 ⟨1, 700⟩] = some final →
      example_toolbar.context.next_id ∉ outstanding final) :=
  have h := release_cancels_pending_popup example_toolbar example_toolbar_reachable 7 ⟨1, 100⟩
    rfl [] (fun _ => List.not_mem_nil _) pending_toolbar rfl 7 ⟨1, 600⟩
  ⟨example_toolbar_reachable, rfl, fun _ => List.not_mem_nil _, rfl, h.2.2.2.1, h.2.2.2.2.1,
    h.2.2.2.2.2.1, fun final hfinal => (h.2.2.2.2.2.2 _ final hfinal).1⟩

/-! ## C7: teardown -/

/-- C7: in every reachable state, `nautilus_toolbar_dispose` leaves
`popup_timeout_id = 0` and no timeout source attached, so no dispatch of
`popup_menu_timeout_cb` is possible; and no timer that was attached before the
teardown is ever attached or dispatched afterwards, whatever events follow. -/
theorem dispose_cancels_pending_popup (self : NautilusToolbar) (hs : Reachable self) :
    (nautilus_toolbar_dispose self).priv.popup_timeout_id = 0 ∧
    outstanding (nautilus_toolbar_dispose self) = [] ∧
    (∀ tag now, g_main_dispatch (nautilus_toolbar_dispose self) tag now = none) ∧
    (∀ tag, tag ∈ outstanding self →
      ∀ (later : List Event) (final : NautilusToolbar),
        run (nautilus_toolbar_dispose self) later = some final →
        tag ∉ outstanding final ∧ ∀ now, Event.timeout tag now ∉ later) := by
  have hinv := reachable_inv hs
  have hnil : outstanding (nautilus_toolbar_dispose self) = [] := by
    simp [outstanding, nautilus_toolbar_dispose, unschedule_sources_nil hinv]
  refine ⟨by simp [nautilus_toolbar_dispose, unschedule_priv], hnil, ?_, ?_⟩
  · intro tag now
    simp [g_main_dispatch, g_main_context_find_source_by_id, nautilus_toolbar_dispose,
      unschedule_sources_nil hinv]
  · intro tag htag later final hlater
    have hlt : tag < self.context.next_id := by
      simp only [outstanding, List.mem_map] at htag
      obtain ⟨src, hmem, hid⟩ := htag
      have := (hinv.2.2.1 src hmem).1
      have := hinv.2.1
      omega
    have hret : Retired tag (nautilus_toolbar_dispose self) := by
      refine ⟨?_, by rw [hnil]; simp⟩
      simp only [nautilus_toolbar_dispose, unschedule_next_id]
      exact hlt
    obtain ⟨hfin, hnot⟩ := run_retired later hret hlater
    exact ⟨hfin.2, hnot⟩

/-- C7 at the pending toolbar: teardown while the timer of a press is attached. -/
theorem dispose_cancels_pending_popup_witness :
    Reachable pending_toolbar ∧ outstanding pending_toolbar = [1] ∧
    (nautilus_toolbar_dispose pending_toolbar).priv.popup_timeout_id = 0 ∧
    outstanding (nautilus_toolbar_dispose pending_toolbar) = [] ∧
    (∀ tag now, g_main_dispatch (nautilus_toolbar_dispose pending_toolbar) tag now = none) :=
  ⟨pending_toolbar_reachable, rfl,
    (dispose_cancels_pending_popup pending_toolbar pending_toolbar_reachable).1,
    (dispose_cancels_pending_popup pending_toolbar pending_toolbar_reachable).2.1,
    (dispose_cancels_pending_popup pending_toolbar pending_toolbar_reachable).2.2.1⟩

theorem schedule_sources_singleton {self : NautilusToolbar} (h : TimerInv self)
    (widget : GtkWidget) :
    (schedule_menu_popup_timeout self widget).context.sources
      = [{ id := self.context.next_id, interval := 1200, data := { widget := widget } }] ∧
    (schedule_menu_popup_timeout self widget).priv.popup_timeout_id = self.context.next_id := by
  simp [schedule_menu_popup_timeout, g_timeout_add_full, unschedule_sources_nil h,
    unschedule_next_id, MENU_POPUP_TIMEOUT]

theorem step_handle_valid {self next : NautilusToolbar} {e : Event} (hinv : TimerInv self)
    (hv : HandleValid self) (hne : ∀ tag now, e ≠ Event.timeout tag now)
    (hstep : step self e = some next) : HandleValid next := by
  cases e with
  | button_press button event =>
    simp only [step, navigation_button_press_cb] at hstep
    split_ifs at hstep with h3 h1
    · cases hm : show_menu self button event.button event.time with
      | none => simp [hm] at hstep
      | some mid =>
        simp only [hm, Option.map_some', Option.some.injEq] at hstep
        subst hstep
        obtain ⟨hp, hc, _⟩ := show_menu_frame hm
        simpa [HandleValid, outstanding, hp, hc] using hv
    · simp only [Option.map_some', Option.some.injEq] at hstep
      subst hstep
      obtain ⟨hsrc, hid⟩ := schedule_sources_singleton hinv button
      right
      simp [outstanding, hsrc, hid]
    · simp only [Option.map_some', Option.some.injEq] at hstep
      subst hstep
      exact hv
  | button_release button event =>
    simp only [step, navigation_button_release_cb, Option.some.injEq] at hstep
    subst hstep
    left
    rw [unschedule_priv]
  | timeout tag now => exact absurd rfl (hne tag now)
  | set_window window =>
    simp only [step, nautilus_toolbar_set_window, Option.some.injEq] at hstep
    subst hstep
    exact hv
  | set_show_location_entry v =>
    simp only [step, nautilus_toolbar_set_show_location_entry, toolbar_update_appearance,
      Option.some.injEq] at hstep
    subst hstep
    split_ifs
    · exact hv
    · exact hv
  | dispose =>
    simp only [step, nautilus_toolbar_dispose, Option.some.injEq] at hstep
    subst hstep
    left
    rw [unschedule_priv]

theorem run_handle_valid {self next : NautilusToolbar} (es : List Event) (hinv : TimerInv self)
    (hv : HandleValid self) (hne : ∀ tag now, Event.timeout tag now ∉ es)
    (hrun : run self es = some next) : HandleValid next := by
  induction es generalizing self with
  | nil =>
    simp only [run, Option.some.injEq] at hrun
    subst hrun
    exact hv
  | cons e es ih =>
    simp only [run] at hrun
    cases hs : step self e with
    | none => simp [hs] at hrun
    | some mid =>
      simp only [hs, Option.some_bind] at hrun
      have hne1 : ∀ tag now, e ≠ Event.timeout tag now := fun tag now heq =>
        hne tag now (by rw [heq]; exact List.mem_cons_self _ _)
      have hne2 : ∀ tag now, Event.timeout tag now ∉ es := fun tag now hmem =>
        hne tag now (List.mem_cons_of_mem _ hmem)
      exact ih (step_inv hinv hs) (step_handle_valid hinv hv hne1 hs) hne2 hrun

theorem fired_toolbar_reachable : Reachable fired_toolbar :=
  Reachable.step (Event.timeout 1 1300) pending_toolbar_reachable rfl

/-! ## C4: the handle after the timer has fired -/

/-- C4, evaluated where the code departs from it: on the freshly initialised
toolbar a primary press on the back button attaches the timer with handle 1;
when the main loop dispatches it, `popup_menu_timeout_cb` shows the menu and
returns FALSE, the source is detached, and `popup_timeout_id` is still 1: the
reached state has a non-zero handle that names no attached source.  In runs
without a timer expiry the handle invariant does hold. -/
theorem popup_timeout_id_stale_after_timeout :
    run example_toolbar [Event.button_press 7 ⟨1, 100⟩, Event.timeout 1 1300]
      = some fired_toolbar ∧
    Reachable fired_toolbar ∧
    (popup_menu_timeout_cb pending_toolbar ⟨7⟩ 1300).map (fun r => r.2) = some false ∧
    fired_toolbar.popups.length = 1 ∧
    fired_toolbar.priv.popup_timeout_id = 1 ∧
    outstanding fired_toolbar = [] ∧
    ¬ HandleValid fired_toolbar ∧
    (∀ (window : NautilusWindow) (back_button forward_button : GtkWidget)
      (always_use_location_entry : Bool) (events : List Event) (self : NautilusToolbar),
      (∀ tag now, Event.timeout tag now ∉ events) →
      run (nautilus_toolbar_init window back_button forward_button always_use_location_entry)
        events = some self →
      HandleValid self) := by
  refine ⟨rfl, fired_toolbar_reachable, rfl, rfl, rfl, rfl, ?_, ?_⟩
  · intro h
    rcases h with h | h
    · exact absurd h (by decide)
    · exact absurd h (by decide)
  · intro window back_button forward_button always_use_location_entry events self hne hrun
    exact run_handle_valid events (init_inv _ _ _ _) (Or.inl rfl) hne hrun

/-! ## C8: cancelling twice, cancelling after firing -/

/-- C8, evaluated where the code departs from it.  `unschedule_menu_popup_timeout`
applied twice equals applying it once, and it changes nothing when
`popup_timeout_id` is 0.  But on the reachable toolbar whose timer has fired no
source is attached while `popup_timeout_id` is 1, and there the function is not
a no-op: it calls `g_source_remove` with the dead handle 1, which finds no
source, and it changes `popup_timeout_id` from 1 to 0. -/
theorem unschedule_after_timeout_not_noop :
    (∀ self, unschedule_menu_popup_timeout (unschedule_menu_popup_timeout self)
      = unschedule_menu_popup_timeout self) ∧
    (∀ self, self.priv.popup_timeout_id = 0 → unschedule_menu_popup_timeout self = self) ∧
    Reachable fired_toolbar ∧
    outstanding fired_toolbar = [] ∧
    fired_toolbar.priv.popup_timeout_id = 1 ∧
    (g_source_remove fired_toolbar.context fired_toolbar.priv.popup_timeout_id).1 = false ∧
    unschedule_menu_popup_timeout fired_toolbar ≠ fired_toolbar ∧
    (unschedule_menu_popup_timeout fired_toolbar).priv.popup_timeout_id = 0 ∧
    outstanding (unschedule_menu_popup_timeout fired_toolbar) = [] := by
  refine ⟨?_, ?_, fired_toolbar_reachable, rfl, rfl, rfl, by decide, rfl, rfl⟩
  · intro self
    have h : (unschedule_menu_popup_timeout self).priv.popup_timeout_id = 0 := by
      rw [unschedule_priv]
    generalize unschedule_menu_popup_timeout self = once at h
    simp [unschedule_menu_popup_timeout, h]
  · intro self h
    simp [unschedule_menu_popup_timeout, h]

theorem int_incr_eq (index : Nat) (h : index + 1 ≤ 2147483647) :
    int_incr (index : Int) = ((index + 1 : Nat) : Int) := by
  unfold int_incr
  push_cast
  omega

theorem fill_menu_loop_spec (back : Bool) (list : List NautilusBookmark) :
    ∀ (index : Nat) (menu : List GtkMenuItem), index + list.length ≤ 2147483647 →
      ∃ items, fill_menu_loop back list (index : Int) menu = menu ++ items ∧
        items.length = list.length ∧
        ∀ (k : Nat) (bookmark : NautilusBookmark), list[k]? = some bookmark →
          items[k]? = some
            ({ bookmark := bookmark,
               user_data := ((index + k : Nat) : Int),
               handler := if back then .activate_back_menu_item_callback
                          else .activate_forward_menu_item_callback } : GtkMenuItem) := by
  induction list with
  | nil =>
    intro index menu _
    exact ⟨[], by simp [fill_menu_loop], rfl, by simp⟩
  | cons data list ih =>
    intro index menu hlen
    simp only [List.length_cons] at hlen
    obtain ⟨items, heq, hlength, hget⟩ := ih (index + 1)
      (menu ++ [{ bookmark := data, user_data := (index : Int),
                  handler := if back then .activate_back_menu_item_callback
                             else .activate_forward_menu_item_callback }]) (by omega)
    refine ⟨({ bookmark := data, user_data := (index : Int),
               handler := if back then .activate_back_menu_item_callback
                          else .activate_forward_menu_item_callback } : GtkMenuItem) :: items,
      ?_, by simp [hlength], ?_⟩
    · simp only [fill_menu_loop]
      rw [int_incr_eq index (by omega), heq]
      simp
    · intro k bookmark hk
      cases k with
      | zero =>
        simp only [List.getElem?_cons_zero, Option.some.injEq] at hk
        simp [hk]
      | succ k =>
        simp only [List.getElem?_cons_succ] at hk ⊢
        rw [hget k bookmark hk]
        congr 3
        omega

/-! ## C5: the items of a history menu -/

/-- C5: for every history list of the active slot in the requested direction
(no longer than `INT_MAX`, the range of the `int index`), `fill_menu` appends
exactly as many items as the list has entries; the k-th appended item is built
from the k-th entry and carries k as its user data; activating it calls
`nautilus_window_back_or_forward` with `back` TRUE for a back menu and FALSE for
a forward menu and with distance k.  An empty history appends nothing. -/
theorem fill_menu_items (window : NautilusWindow) (menu : List GtkMenuItem) (back : Bool)
    (hlen : (if back then window.back_history else window.forward_history).length
      ≤ 2147483647) :
    ∃ items, fill_menu window menu back = menu ++ items ∧
      items.length = (if back then window.back_history else window.forward_history).length ∧
      (∀ (k : Nat) (bookmark : NautilusBookmark),
        (if back then window.back_history else window.forward_history)[k]? = some bookmark →
        ∃ item, items[k]? = some item ∧
          item.bookmark = bookmark ∧
          item.user_data = (k : Int) ∧
          ∀ flags, gtk_menu_item_activate item flags
            = { back := back, distance := (k : Int), flags := flags }) ∧
      ((if back then window.back_history else window.forward_history) = [] → items = []) := by
  obtain ⟨items, heq, hlength, hget⟩ := fill_menu_loop_spec back
    (if back then window.back_history else window.forward_history) 0 menu (by omega)
  refine ⟨items, ?_, hlength, ?_, ?_⟩
  · simpa [fill_menu] using heq
  · intro k bookmark hk
    refine ⟨_, hget k bookmark hk, rfl, by simp, ?_⟩
    intro flags
    cases back <;>
      simp [gtk_menu_item_activate, activate_back_menu_item_callback,
        activate_forward_menu_item_callback, activate_back_or_forward_menu_item]
  · intro hnil
    rw [hnil] at hlength
    exact List.length_eq_zero.mp hlength

/-- C5 on the example window: the back menu has three items, the second one is
built from entry 11 and carries index 1. -/
theorem fill_menu_items_witness :
    (if true then example_window.back_history else example_window.forward_history).length
      ≤ 2147483647 ∧
    ∃ items, fill_menu example_window [] true = [] ++ items ∧
      items.length = (if true then example_window.back_history
        else example_window.forward_history).length ∧
      (∀ (k : Nat) (bookmark : NautilusBookmark),
        (if true then example_window.back_history else example_window.forward_history)[k]?
          = some bookmark →
        ∃ item, items[k]? = some item ∧
          item.bookmark = bookmark ∧
          item.user_data = (k : Int) ∧
          ∀ flags, gtk_menu_item_activate item flags
            = { back := true, distance := (k : Int), flags := flags }) ∧
      ((if true then example_window.back_history else example_window.forward_history) = [] →
        items = []) :=
  ⟨by decide, fill_menu_items example_window [] true (by decide)⟩

/-! ## C6: vertical placement of the menu -/

/-- C6, evaluated where the code departs from it.  Work area from y = 1080 to
y = 2160, button top at 1480 and 40 high, menu 700 high: the menu fits neither
below (2220 > 2160) nor above (780 < 1080); inside the work area there are 640
below the button and 400 above it, so the claim places the menu below, at 1520.
`menu_position_func` compares the 640 with the button's root coordinate 1480
instead of the 400, and places it above, at 780.  The two agree whenever the
work area starts at y = 0, and whenever the menu fits on one side. -/
theorem menu_position_func_ignores_work_area_top :
    ¬ (example_placement.origin_y + example_placement.allocation.y
        + example_placement.allocation.height + example_placement.menu_req.height
        ≤ example_placement.monitor.y + example_placement.monitor.height) ∧
    ¬ (example_placement.origin_y + example_placement.allocation.y
        - example_placement.menu_req.height ≥ example_placement.monitor.y) ∧
    example_placement.monitor.y + example_placement.monitor.height
      - (example_placement.origin_y + example_placement.allocation.y
          + example_placement.allocation.height) = 640 ∧
    example_placement.origin_y + example_placement.allocation.y
      - example_placement.monitor.y = 400 ∧
    menu_y_spec example_placement = 1520 ∧
    (menu_position_func example_placement).2.1 = 780 ∧
    (∀ g : MenuPlacement, g.monitor.y = 0 → (menu_position_func g).2.1 = menu_y_spec g) ∧
    (∀ g : MenuPlacement,
      (g.origin_y + g.allocation.y + g.allocation.height + g.menu_req.height
          ≤ g.monitor.y + g.monitor.height ∨
        g.origin_y + g.allocation.y - g.menu_req.height ≥ g.monitor.y) →
      (menu_position_func g).2.1 = menu_y_spec g) := by
  refine ⟨by decide, by decide, by decide, by decide, by decide, by decide, ?_, ?_⟩
  · intro g h0
    simp only [menu_position_func, menu_y_spec, h0]
    split_ifs <;> omega
  · intro g hfit
    simp only [menu_position_func, menu_y_spec]
    split_ifs <;> omega

theorem unschedule_nav_direction (self : NautilusToolbar) :
    (unschedule_menu_popup_timeout self).nav_direction = self.nav_direction := by
  unfold unschedule_menu_popup_timeout
  split_ifs <;> rfl

theorem step_buttons {self next : NautilusToolbar} {e : Event}
    (hstep : step self e = some next) :
    next.nav_direction = self.nav_direction ∧
    next.priv.back_button = self.priv.back_button ∧
    next.priv.forward_button = self.priv.forward_button := by
  cases e with
  | button_press button event =>
    simp only [step, navigation_button_press_cb] at hstep
    split_ifs at hstep with h3 h1
    · cases hm : show_menu self button event.button event.time with
      | none => simp [hm] at hstep
      | some mid =>
        simp only [hm, Option.map_some', Option.some.injEq] at hstep
        subst hstep
        obtain ⟨hp, _, hd⟩ := show_menu_frame hm
        exact ⟨hd, by rw [hp], by rw [hp]⟩
    · simp only [Option.map_some', Option.some.injEq] at hstep
      subst hstep
      simp [schedule_menu_popup_timeout, unschedule_nav_direction, unschedule_priv]
    · simp only [Option.map_some', Option.some.injEq] at hstep
      subst hstep
      exact ⟨rfl, rfl, rfl⟩
  | button_release button event =>
    simp only [step, navigation_button_release_cb, Option.some.injEq] at hstep
    subst hstep
    simp [unschedule_nav_direction, unschedule_priv]
  | timeout tag now =>
    simp only [step] at hstep
    obtain ⟨_, hp, hd, _⟩ := dispatch_eq_some hstep
    exact ⟨hd, by rw [hp], by rw [hp]⟩
  | set_window window =>
    simp only [step, nautilus_toolbar_set_window, Option.some.injEq] at hstep
    subst hstep
    exact ⟨rfl, rfl, rfl⟩
  | set_show_location_entry v =>
    simp only [step, nautilus_toolbar_set_show_location_entry, toolbar_update_appearance,
      Option.some.injEq] at hstep
    subst hstep
    split_ifs <;> exact ⟨rfl, rfl, rfl⟩
  | dispose =>
    simp only [step, nautilus_toolbar_dispose, Option.some.injEq] at hstep
    subst hstep
    simp [unschedule_nav_direction, unschedule_priv]

theorem run_buttons {self next : NautilusToolbar} (es : List Event)
    (hrun : run self es = some next) :
    next.nav_direction = self.nav_direction ∧
    next.priv.back_button = self.priv.back_button ∧
    next.priv.forward_button = self.priv.forward_button := by
  induction es generalizing self with
  | nil =>
    simp only [run, Option.some.injEq] at hrun
    subst hrun
    exact ⟨rfl, rfl, rfl⟩
  | cons e es ih =>
    simp only [run] at hrun
    cases hs : step self e with
    | none => simp [hs] at hrun
    | some mid =>
      simp only [hs, Option.some_bind] at hrun
      obtain ⟨h1, h2, h3⟩ := step_buttons hs
      obtain ⟨k1, k2, k3⟩ := ih hrun
      exact ⟨k1.trans h1, k2.trans h2, k3.trans h3⟩

theorem init_tagged (window : NautilusWindow) (back_button forward_button : GtkWidget)
    (always_use_location_entry : Bool) (hne : back_button ≠ forward_button) :
    Tagged (nautilus_toolbar_init window back_button forward_button
      always_use_location_entry) := by
  have hne2 : (forward_button == back_button) = false := by
    simpa using fun h => hne h.symm
  simp [Tagged, nautilus_toolbar_init, toolbar_update_appearance, g_object_set_data,
    g_object_get_data, List.find?, hne2]

theorem show_menu_eq_none_iff (self : NautilusToolbar) (widget : GtkWidget)
    (button event_time : Nat) :
    show_menu self widget button event_time = none ↔
      g_object_get_data self.nav_direction widget ≠ NAUTILUS_NAVIGATION_DIRECTION_BACK ∧
      g_object_get_data self.nav_direction widget ≠ NAUTILUS_NAVIGATION_DIRECTION_FORWARD := by
  unfold show_menu
  simp only []
  split_ifs with hf hb
  · simp [hf]
  · simp [hb]
  · simp [hf, hb]

/-! ## C10: the unreachable branch of `show_menu` -/

/-- C10: in every state reached from `nautilus_toolbar_init` with two distinct
template buttons, `show_menu` anchored to the back button pops up the menu
filled from the back history and anchored to the forward button the menu
filled from the forward history; neither a press on one of the two buttons nor
the timer callback for one of them reaches `g_assert_not_reached ()`.  For any
widget, `show_menu` reaches the assertion exactly when the widget's
"nav-direction" value is neither BACK nor FORWARD. -/
theorem show_menu_assertion_unreachable (window : NautilusWindow)
    (back_button forward_button : GtkWidget) (always_use_location_entry : Bool)
    (hne : back_button ≠ forward_button) (events : List Event) (self : NautilusToolbar)
    (hrun : run (nautilus_toolbar_init window back_button forward_button
      always_use_location_entry) events = some self) :
    (∀ button event_time, show_menu self back_button button event_time
      = some (gtk_menu_popup self (fill_menu self.priv.window [] true) back_button button
          event_time)) ∧
    (∀ button event_time, show_menu self forward_button button event_time
      = some (gtk_menu_popup self (fill_menu self.priv.window [] false) forward_button button
          event_time)) ∧
    (∀ widget, widget = back_button ∨ widget = forward_button →
      (∀ event, navigation_button_press_cb self widget event ≠ none) ∧
      (∀ now, popup_menu_timeout_cb self { widget := widget } now ≠ none)) ∧
    (∀ widget button event_time,
      show_menu self widget button event_time = none ↔
        g_object_get_data self.nav_direction widget ≠ NAUTILUS_NAVIGATION_DIRECTION_BACK ∧
        g_object_get_data self.nav_direction widget
          ≠ NAUTILUS_NAVIGATION_DIRECTION_FORWARD) := by
  obtain ⟨hd, _, _⟩ := run_buttons events hrun
  have htag := init_tagged window back_button forward_button always_use_location_entry hne
  have hb : g_object_get_data self.nav_direction back_button
      = NAUTILUS_NAVIGATION_DIRECTION_BACK := by
    rw [hd]; exact htag.1
  have hf : g_object_get_data self.nav_direction forward_button
      = NAUTILUS_NAVIGATION_DIRECTION_FORWARD := by
    rw [hd]; exact htag.2
  have hback : ∀ button event_time, show_menu self back_button button event_time
      = some (gtk_menu_popup self (fill_menu self.priv.window [] true) back_button button
          event_time) := by
    intro button event_time
    simp [show_menu, hb, NAUTILUS_NAVIGATION_DIRECTION_BACK,
      NAUTILUS_NAVIGATION_DIRECTION_FORWARD]
  have hforward : ∀ button event_time, show_menu self forward_button button event_time
      = some (gtk_menu_popup self (fill_menu self.priv.window [] false) forward_button button
          event_time) := by
    intro button event_time
    simp [show_menu, hf]
  refine ⟨hback, hforward, ?_, fun widget button event_time =>
    show_menu_eq_none_iff self widget button event_time⟩
  intro widget hw
  have hshow : ∀ button event_time, show_menu self widget button event_time ≠ none := by
    intro button event_time
    rcases hw with rfl | rfl
    · rw [hback]; simp
    · rw [hforward]; simp
  constructor
  · intro event
    unfold navigation_button_press_cb
    split_ifs
    · cases hm : show_menu self widget event.button event.time with
      | none => exact absurd hm (hshow _ _)
      | some mid => simp
    · simp
    · simp
  · intro now
    unfold popup_menu_timeout_cb
    cases hm : show_menu self widget 1 now with
    | none => exact absurd hm (hshow _ _)
    | some mid => simp

/-- C10 on the example toolbar after a primary press and the firing of its
timer: the back button still shows the back history. -/
theorem show_menu_assertion_unreachable_witness :
    (7 : GtkWidget) ≠ 8 ∧
    run (nautilus_toolbar_init example_window 7 8 false)
      [Event.button_press 7 ⟨1, 100⟩, Event.timeout 1 1300] = some fired_toolbar ∧
    (∀ button event_time, show_menu fired_toolbar 7 button event_time
      = some (gtk_menu_popup fired_toolbar (fill_menu fired_toolbar.priv.window [] true) 7
          button event_time)) ∧
    (∀ button event_time, show_menu fired_toolbar 8 button event_time
      = some (gtk_menu_popup fired_toolbar (fill_menu fired_toolbar.priv.window [] false) 8
          button event_time)) :=
  ⟨by decide, rfl,
    (show_menu_assertion_unreachable example_window 7 8 false (by decide)
      [Event.button_press 7 ⟨1, 100⟩, Event.timeout 1 1300] fired_toolbar rfl).1,
    (show_menu_assertion_unreachable example_window 7 8 false (by decide)
      [Event.button_press 7 ⟨1, 100⟩, Event.timeout 1 1300] fired_toolbar rfl).2.1⟩

/-! ## C11: toggling the location entry -/

/-- C11: for every toolbar state and every value v.  When v differs from the
stored flag, after `nautilus_toolbar_set_show_location_entry` the stored flag is
v, the location entry is visible exactly when v or the always-use-location-entry
preference is true, the path bar is visible exactly when the location entry is
not, one more property notification has been emitted, and nothing else of the
state has changed.  When v equals the stored flag the call returns the state it
was given: no field, no visibility and no notification count changes. -/
theorem set_show_location_entry_effect (self : NautilusToolbar) (v : Bool) :
    (v ≠ self.priv.show_location_entry →
      (nautilus_toolbar_set_show_location_entry self v).priv.show_location_entry = v ∧
      ((nautilus_toolbar_set_show_location_entry self v).location_entry_visible = true ↔
        (v = true ∨ self.always_use_location_entry = true)) ∧
      ((nautilus_toolbar_set_show_location_entry self v).path_bar_visible = true ↔
        (nautilus_toolbar_set_show_location_entry self v).location_entry_visible = false) ∧
      (nautilus_toolbar_set_show_location_entry self v).path_bar_visible
        ≠ (nautilus_toolbar_set_show_location_entry self v).location_entry_visible ∧
      (nautilus_toolbar_set_show_location_entry self v).notifications
        = self.notifications + 1 ∧
      (nautilus_toolbar_set_show_location_entry self v).priv
        = { self.priv with show_location_entry := v } ∧
      (nautilus_toolbar_set_show_location_entry self v).context = self.context ∧
      (nautilus_toolbar_set_show_location_entry self v).nav_direction = self.nav_direction ∧
      (nautilus_toolbar_set_show_location_entry self v).popups = self.popups ∧
      (nautilus_toolbar_set_show_location_entry self v).always_use_location_entry
        = self.always_use_location_entry) ∧
    (v = self.priv.show_location_entry →
      nautilus_toolbar_set_show_location_entry self v = self) := by
  constructor
  · intro hne
    have hb : (v != self.priv.show_location_entry) = true := by simpa using hne
    have hdef : nautilus_toolbar_set_show_location_entry self v
        = { toolbar_update_appearance
              { self with priv := { self.priv with show_location_entry := v } } with
            notifications := self.notifications + 1 } := by
      simp [nautilus_toolbar_set_show_location_entry, hb, toolbar_update_appearance]
    rw [hdef]
    refine ⟨rfl, ?_, ?_, ?_, rfl, rfl, rfl, rfl, rfl, rfl⟩
    · simp [toolbar_update_appearance]
    · simp [toolbar_update_appearance]
    · cases v <;> cases hp : self.always_use_location_entry <;>
        simp [toolbar_update_appearance, hp]
  · intro heq
    simp [nautilus_toolbar_set_show_location_entry, heq]

/-- C11 on the freshly initialised toolbar (flag FALSE, preference FALSE): setting
TRUE shows the location entry, hides the path bar and notifies once; setting
FALSE changes nothing. -/
theorem set_show_location_entry_effect_witness :
    true ≠ example_toolbar.priv.show_location_entry ∧
    (nautilus_toolbar_set_show_location_entry example_toolbar true).priv.show_location_entry
      = true ∧
    (nautilus_toolbar_set_show_location_entry example_toolbar true).notifications
      = example_toolbar.notifications + 1 ∧
    false = example_toolbar.priv.show_location_entry ∧
    nautilus_toolbar_set_show_location_entry example_toolbar false = example_toolbar :=
  ⟨by decide,
    ((set_show_location_entry_effect example_toolbar true).1 (by decide)).1,
    ((set_show_location_entry_effect example_toolbar true).1 (by decide)).2.2.2.2.1,
    rfl,
    (set_show_location_entry_effect example_toolbar false).2 rfl⟩

end Nautilus
